import Mathlib

/-!
Verification of the TalentRadar graduated criterion-scoring and
qualification engine, and of two score-handling functions of the
frontend (`src/frontend/assets/js/app.js`).

The backend scoring engine lives in `backend/services/scoring_service.py`
of the repository, which is not among the provided source files; the
engine definitions below are therefore modelled from the specification
(`spec.md`, §3, §4, §7), as noted on each definition.  The frontend
definitions are translated directly from `app.js`.

All numeric values are modelled as rationals (`ℚ`): the engine's
arithmetic (weights, multipliers, percentages) is plain field
arithmetic, and the claims under verification are exact statements
about it.
-/

namespace TalentRadar

/-- Modelled from the spec (§4.1): a numeric scoring bucket
`{min, max, multiplier, label}` used by the RangeScorer. -/
structure Bucket where
  bmin : ℚ
  bmax : ℚ
  multiplier : ℚ
  label : String
deriving DecidableEq

/-- Modelled from the spec (§4.4): keyword match modes of the
KeywordMatchScorer. -/
inductive MatchType
  | anyKw
  | allKw
  | proportional
deriving DecidableEq

/-- Modelled from the spec (§3, §9): the closed tagged-variant of
type-specific criterion configuration, one constructor per `data_type`;
`unsupported` models an unknown `data_type` tag (§4.5). -/
inductive CriterionConfig
  | ranged (buckets : List Bucket)
  | categorical (levels : List (String × ℚ))
  | booleanCfg (true_value false_value : ℚ)
  | textMatch (required_keywords : List String) (match_type : MatchType)
  | unsupported (tag : String)
deriving DecidableEq

/-- Modelled from the spec (§3): one evaluation criterion owned by a
position. -/
structure Criterion where
  cid : Nat
  name : String
  weight : ℚ
  category : String
  config : CriterionConfig
deriving DecidableEq

/-- Modelled from the spec (§3): a raw extracted value — number, string
label, boolean, or free text (strings model both labels and free text). -/
inductive ExtractedValue
  | num (v : ℚ)
  | str (s : String)
  | boolVal (b : Bool)
deriving DecidableEq

/-- Modelled from the spec (§7): the reasoning attached to a
`ScoreResult` — either a successful outcome with a label, or one of the
five local, non-fatal error kinds. -/
inductive Reasoning
  | ok (label : String)
  | invalidCriterionConfig
  | unsupportedCriterionType
  | valueParseError
  | missingValue
  | unrecognizedLevel
deriving DecidableEq

/-- Modelled from the spec (§3): the per-criterion scoring outcome. -/
structure ScoreResult where
  criterion_id : Nat
  criterion_name : String
  awarded_points : ℚ
  max_points : ℚ
  reasoning : Reasoning
  category : String
deriving DecidableEq

/-- Modelled from the spec (§4.1, steps 3 and 4): the RangeScorer
outcome for a clamped value `v'` contained in no bucket.  Below the
lowest bucket's `bmin` the linear ramp
`lowest.multiplier × (v' / lowest.bmin)` applies; above the highest
bucket's `bmax` the multiplier is capped at the highest bucket's.  A
value falling in a gap between configured buckets is not covered by the
spec's algorithm steps; the model awards multiplier 0 there. -/
def rampOrCap (b0 : Bucket) (rest : List Bucket) (v' : ℚ) : ℚ × Reasoning :=
  if v' < b0.bmin then
    (b0.multiplier * (v' / b0.bmin), Reasoning.ok b0.label)
  else if (rest.getLastD b0).bmax < v' then
    ((rest.getLastD b0).multiplier, Reasoning.ok (rest.getLastD b0).label)
  else
    (0, Reasoning.ok "between buckets")

/-- Modelled from the spec (§4.1): RangeScorer multiplier.  The value is
clamped at 0; a value inside some bucket's `[bmin, bmax]` takes that
bucket's multiplier; otherwise `rampOrCap` applies the below-lowest ramp
or the above-highest cap.  An empty bucket list is an
`InvalidCriterionConfig`. -/
def rangeMultiplier (buckets : List Bucket) (v : ℚ) : ℚ × Reasoning :=
  match buckets with
  | [] => (0, Reasoning.invalidCriterionConfig)
  | b0 :: rest =>
    match (b0 :: rest).find? (fun b => decide (b.bmin ≤ max v 0 ∧ max v 0 ≤ b.bmax)) with
    | some b => (b.multiplier, Reasoning.ok b.label)
    | none => rampOrCap b0 rest (max v 0)

/-- Modelled from the spec (§4.2): CategoricalScorer multiplier — exact,
case-sensitive lookup of the label in the level map; unknown label gives
multiplier 0 with `UnrecognizedLevel`. -/
def categoricalMultiplier (levels : List (String × ℚ)) (label : String) : ℚ × Reasoning :=
  match levels.find? (fun p => p.1 == label) with
  | some p => (p.2, Reasoning.ok p.1)
  | none => (0, Reasoning.unrecognizedLevel)

/-- ASCII lower-casing of one character. -/
def lowerChar (ch : Char) : Char :=
  if 65 ≤ ch.toNat ∧ ch.toNat ≤ 90 then Char.ofNat (ch.toNat + 32) else ch

/-- Leading-segment test: `listStartsWith p l` is true when `p` is a
leading segment of `l`. -/
def listStartsWith : List Char → List Char → Bool
  | [], _ => true
  | _ :: _, [] => false
  | a :: as, b :: bs => a == b && listStartsWith as bs

/-- Contiguous-occurrence test: `listHasInfix p l` is true when `p`
occurs contiguously in `l`. -/
def listHasInfix (p : List Char) : List Char → Bool
  | [] => listStartsWith p []
  | b :: bs => listStartsWith p (b :: bs) || listHasInfix p bs

/-- Modelled from the spec (§4.4): case-insensitive substring test of a
keyword against the provided text. -/
def keywordMatches (keyword text : String) : Bool :=
  listHasInfix (keyword.toList.map lowerChar) (text.toList.map lowerChar)

/-- Modelled from the spec (§4.4): KeywordMatchScorer multiplier over
non-empty text.  An empty required-keyword list violates the scorer's
input contract and is an `InvalidCriterionConfig`. -/
def keywordMultiplier (required : List String) (mt : MatchType) (text : String) :
    ℚ × Reasoning :=
  match required with
  | [] => (0, Reasoning.invalidCriterionConfig)
  | _ :: _ =>
    let matched := (required.filter (fun k => keywordMatches k text)).length
    match mt with
    | MatchType.anyKw =>
        (if 0 < matched then 1 else 0, Reasoning.ok "any match")
    | MatchType.allKw =>
        (if matched = required.length then 1 else 0, Reasoning.ok "all match")
    | MatchType.proportional =>
        ((matched : ℚ) / (required.length : ℚ), Reasoning.ok "proportional match")

/-- Modelled from the spec (§4.3, §4.5): the multiplier and reasoning
the dispatcher derives from a criterion's config and the (optional)
extracted value.  A missing value is the scorer-specific empty input
(`MissingValue`); a value of the wrong shape is a `ValueParseError`;
empty text for the keyword scorer is a `MissingValue` (§4.4). -/
def criterionMultiplier (c : Criterion) (v : Option ExtractedValue) : ℚ × Reasoning :=
  match c.config, v with
  | CriterionConfig.ranged buckets, some (ExtractedValue.num x) => rangeMultiplier buckets x
  | CriterionConfig.ranged _, some _ => (0, Reasoning.valueParseError)
  | CriterionConfig.ranged _, none => (0, Reasoning.missingValue)
  | CriterionConfig.categorical levels, some (ExtractedValue.str s) =>
      categoricalMultiplier levels s
  | CriterionConfig.categorical _, some _ => (0, Reasoning.valueParseError)
  | CriterionConfig.categorical _, none => (0, Reasoning.missingValue)
  | CriterionConfig.booleanCfg tv fv, some (ExtractedValue.boolVal b) =>
      (if b then tv else fv, Reasoning.ok (if b then "yes" else "no"))
  | CriterionConfig.booleanCfg _ _, some _ => (0, Reasoning.valueParseError)
  | CriterionConfig.booleanCfg _ _, none => (0, Reasoning.missingValue)
  | CriterionConfig.textMatch kws mt, some (ExtractedValue.str t) =>
      if t = "" then (0, Reasoning.missingValue) else keywordMultiplier kws mt t
  | CriterionConfig.textMatch _ _, some _ => (0, Reasoning.valueParseError)
  | CriterionConfig.textMatch _ _, none => (0, Reasoning.missingValue)
  | CriterionConfig.unsupported _, _ => (0, Reasoning.unsupportedCriterionType)

/-- Modelled from the spec (§4.5, glossary): the CriterionEvaluator is a
pure function `(Criterion, ExtractedValue?) → ScoreResult` with
`awarded = weight × multiplier` and `max_points = weight`, never
aborting. -/
def evaluate (c : Criterion) (v : Option ExtractedValue) : ScoreResult :=
  { criterion_id := c.cid
    criterion_name := c.name
    awarded_points := c.weight * (criterionMultiplier c v).1
    max_points := c.weight
    reasoning := (criterionMultiplier c v).2
    category := c.category }

/-- Modelled from the spec (§4.6): Aggregator total. -/
def totalScore (results : List ScoreResult) : ℚ :=
  (results.map (fun r => r.awarded_points)).sum

/-- Modelled from the spec (§4.6): Aggregator maximum possible score. -/
def maxPossibleScore (results : List ScoreResult) : ℚ :=
  (results.map (fun r => r.max_points)).sum

/-- Modelled from the spec (§4.6): aggregate percentage, guarded against
division by zero. -/
def percentage (results : List ScoreResult) : ℚ :=
  if maxPossibleScore results = 0 then 0
  else totalScore results / maxPossibleScore results * 100

/-- Modelled from the spec (§4.7): the two terminal qualification
states. -/
inductive Status
  | qualified
  | rejected
deriving DecidableEq

/-- Modelled from the spec (§4.7): QualificationDecision — `Qualified`
when the percentage reaches the threshold, inclusive. -/
def qualificationDecision (pct threshold : ℚ) : Status :=
  if threshold ≤ pct then Status.qualified else Status.rejected

/-- Modelled from the spec (§3): the aggregate outcome of one scoring
run. -/
structure AggregateScore where
  total_score : ℚ
  max_possible_score : ℚ
  pct : ℚ
  status : Status
deriving DecidableEq

/-- Modelled from the spec (§2, §7): the whole engine for one candidate
and one position — evaluate every criterion, aggregate, decide.  The
zero-total-weight condition is guarded to return `percentage = 0` and
`status = Rejected` rather than raising (§7). -/
def scoreResume (criteria : List Criterion) (values : Nat → Option ExtractedValue)
    (threshold : ℚ) : AggregateScore :=
  let results := criteria.map (fun c => evaluate c (values c.cid))
  if maxPossibleScore results = 0 then
    { total_score := totalScore results
      max_possible_score := maxPossibleScore results
      pct := 0
      status := Status.rejected }
  else
    { total_score := totalScore results
      max_possible_score := maxPossibleScore results
      pct := percentage results
      status := qualificationDecision (percentage results) threshold }

/-- Modelled from the spec (§3, §6): config validity — every multiplier
the config carries lies in `[0, 1]`. -/
def ValidConfig : CriterionConfig → Prop
  | CriterionConfig.ranged buckets => ∀ b ∈ buckets, 0 ≤ b.multiplier ∧ b.multiplier ≤ 1
  | CriterionConfig.categorical levels => ∀ p ∈ levels, 0 ≤ p.2 ∧ p.2 ≤ 1
  | CriterionConfig.booleanCfg tv fv => (0 ≤ tv ∧ tv ≤ 1) ∧ (0 ≤ fv ∧ fv ≤ 1)
  | CriterionConfig.textMatch _ _ => True
  | CriterionConfig.unsupported _ => True

/-- A concrete ranged criterion taken from the repository's
documentation (`ranged_number` config example, README): weight 20 and
the experience buckets Qualified/Senior/Expert. -/
def expCriterion : Criterion :=
  ⟨1, "Work Experience", 20, "core", CriterionConfig.ranged
    [⟨2, 4, 0.6, "Qualified"⟩, ⟨5, 9, 0.85, "Senior"⟩, ⟨10, 999, 1, "Expert"⟩]⟩

/-- The eight per-criterion results of the repository documentation's
"Scoring Example 1: Strong Candidate" (Senior Accountant, threshold
75%): awarded points 17/20, 13.5/15, 10/10, 12/15, 15/15, 10/10, 8/8
and 4/5. -/
def strongCandidateResults : List ScoreResult :=
  [⟨1, "Work Experience", 17, 20, Reasoning.ok "8 years", "core"⟩,
   ⟨2, "Education Level", 13.5, 15, Reasoning.ok "Masters", "core"⟩,
   ⟨3, "Education Field", 10, 10, Reasoning.ok "Accounting", "core"⟩,
   ⟨4, "Responsibility Level", 12, 15, Reasoning.ok "Supervisor", "core"⟩,
   ⟨5, "Last Job Title", 15, 15, Reasoning.ok "Senior Accountant", "core"⟩,
   ⟨6, "Sepidar Software", 10, 10, Reasoning.ok "Advanced", "supplementary"⟩,
   ⟨7, "Excel Skills", 8, 8, Reasoning.ok "Advanced", "supplementary"⟩,
   ⟨8, "English Level", 4, 5, Reasoning.ok "65%", "supplementary"⟩]

/-! Frontend score handling, translated from
`src/frontend/assets/js/app.js`. -/

/-- The score object attached to a resume row as the frontend receives
it (`resume.score` in `app.js`): a percentage and a status string. -/
structure ResumeScore where
  percentage : ℚ
  status : String
deriving DecidableEq

/-- A resume row as the frontend receives it: an optional score object
(absent while processing) and a processing status string. -/
structure Resume where
  score : Option ResumeScore
  processing_status : String
deriving DecidableEq

/-- From `loadResults` in `app.js`: the frontend score-range filter.
`resumes.filter(resume => { if (!resume.score) return true; return
resume.score.percentage >= filters.score_min && resume.score.percentage
<= filters.score_max; })`. -/
def filterByScoreRange (resumes : List Resume) (score_min score_max : ℚ) : List Resume :=
  resumes.filter (fun r =>
    match r.score with
    | none => true
    | some s => decide (score_min ≤ s.percentage) && decide (s.percentage ≤ score_max))

/-- From `loadDashboard` in `app.js`: `resumes.filter(r => r.score)`,
projected to the score objects. -/
def scoredResumes (resumes : List Resume) : List ResumeScore :=
  resumes.filterMap (fun r => r.score)

/-- From `loadDashboard` in `app.js`: `resumes.length > 0 ?
resumes.filter(r => r.score).reduce((sum, r) => sum +
r.score.percentage, 0) / Math.max(resumes.filter(r => r.score).length,
1) : 0`. -/
def avgScore (resumes : List Resume) : ℚ :=
  if 0 < resumes.length then
    ((scoredResumes resumes).map (fun s => s.percentage)).sum
      / ((max (scoredResumes resumes).length 1 : ℕ) : ℚ)
  else 0

/-! Helper lemmas: every scorer's multiplier lies in `[0, 1]` whenever
the configured multipliers do. -/

theorem rampOrCap_fst_nonneg_le_one (b0 : Bucket) (rest : List Bucket) (v' : ℚ)
    (hv : 0 ≤ v')
    (h : ∀ b ∈ b0 :: rest, 0 ≤ b.multiplier ∧ b.multiplier ≤ 1) :
    0 ≤ (rampOrCap b0 rest v').1 ∧ (rampOrCap b0 rest v').1 ≤ 1 := by
  unfold rampOrCap
  split
  · rename_i hlt
    have hmin : 0 < b0.bmin := lt_of_le_of_lt hv hlt
    have hm := h b0 (List.mem_cons_self _ _)
    have hd0 : 0 ≤ v' / b0.bmin := div_nonneg hv hmin.le
    have hd1 : v' / b0.bmin ≤ 1 := (div_le_one hmin).mpr hlt.le
    exact ⟨mul_nonneg hm.1 hd0, mul_le_one₀ hm.2 hd0 hd1⟩
  · split
    · exact h _ (List.getLastD_mem_cons rest b0)
    · simp

theorem rangeMultiplier_fst_nonneg_le_one (buckets : List Bucket) (v : ℚ)
    (h : ∀ b ∈ buckets, 0 ≤ b.multiplier ∧ b.multiplier ≤ 1) :
    0 ≤ (rangeMultiplier buckets v).1 ∧ (rangeMultiplier buckets v).1 ≤ 1 := by
  cases buckets with
  | nil => simp [rangeMultiplier]
  | cons b0 rest =>
    simp only [rangeMultiplier]
    split
    · rename_i b hfind
      exact h b (List.mem_of_find?_eq_some hfind)
    · exact rampOrCap_fst_nonneg_le_one b0 rest (max v 0) (le_max_right v 0) h

theorem categoricalMultiplier_fst_nonneg_le_one (levels : List (String × ℚ))
    (label : String) (h : ∀ p ∈ levels, 0 ≤ p.2 ∧ p.2 ≤ 1) :
    0 ≤ (categoricalMultiplier levels label).1 ∧
      (categoricalMultiplier levels label).1 ≤ 1 := by
  unfold categoricalMultiplier
  split
  · rename_i p hfind
    exact h p (List.mem_of_find?_eq_some hfind)
  · simp

theorem keywordMultiplier_fst_nonneg_le_one (required : List String) (mt : MatchType)
    (text : String) :
    0 ≤ (keywordMultiplier required mt text).1 ∧
      (keywordMultiplier required mt text).1 ≤ 1 := by
  cases required with
  | nil => simp [keywordMultiplier]
  | cons k ks =>
    cases mt with
    | anyKw =>
      simp only [keywordMultiplier]
      split <;> norm_num
    | allKw =>
      simp only [keywordMultiplier]
      split <;> norm_num
    | proportional =>
      simp only [keywordMultiplier]
      have hlen : (0 : ℚ) < ((k :: ks).length : ℚ) := by
        exact_mod_cast Nat.succ_pos ks.length
      constructor
      · exact div_nonneg (Nat.cast_nonneg _) (Nat.cast_nonneg _)
      · rw [div_le_one hlen]
        exact_mod_cast List.length_filter_le _ _

theorem criterionMultiplier_fst_nonneg_le_one (c : Criterion) (v : Option ExtractedValue)
    (hc : ValidConfig c.config) :
    0 ≤ (criterionMultiplier c v).1 ∧ (criterionMultiplier c v).1 ≤ 1 := by
  obtain ⟨cid, nm, w, cat, cfg⟩ := c
  cases cfg with
  | ranged buckets =>
    simp only [ValidConfig] at hc
    cases v with
    | none => simp [criterionMultiplier]
    | some ev =>
      cases ev with
      | num x => exact rangeMultiplier_fst_nonneg_le_one buckets x hc
      | str s => simp [criterionMultiplier]
      | boolVal b => simp [criterionMultiplier]
  | categorical levels =>
    simp only [ValidConfig] at hc
    cases v with
    | none => simp [criterionMultiplier]
    | some ev =>
      cases ev with
      | num x => simp [criterionMultiplier]
      | str s => exact categoricalMultiplier_fst_nonneg_le_one levels s hc
      | boolVal b => simp [criterionMultiplier]
  | booleanCfg tv fv =>
    simp only [ValidConfig] at hc
    cases v with
    | none => simp [criterionMultiplier]
    | some ev =>
      cases ev with
      | num x => simp [criterionMultiplier]
      | str s => simp [criterionMultiplier]
      | boolVal b =>
        cases b <;> simp [criterionMultiplier, hc.1.1, hc.1.2, hc.2.1, hc.2.2]
  | textMatch kws mt =>
    cases v with
    | none => simp [criterionMultiplier]
    | some ev =>
      cases ev with
      | num x => simp [criterionMultiplier]
      | str t =>
        by_cases ht : t = ""
        · simp [criterionMultiplier, ht]
        · simpa [criterionMultiplier, ht] using
            keywordMultiplier_fst_nonneg_le_one kws mt t
      | boolVal b => simp [criterionMultiplier]
  | unsupported tag => simp [criterionMultiplier]

/-- C1: for every criterion evaluation, the `ScoreResult` produced by
the CriterionEvaluator satisfies `0 ≤ awarded_points ≤ max_points` with
`max_points` equal to the criterion's weight — for every config variant
(hence every `data_type`, the unsupported ones included) and every
extracted value, missing, unparsable and unrecognized ones included —
given the spec's input contract: non-negative weight and configured
multipliers in `[0, 1]`. -/
theorem criterionEvaluator_score_bounds (c : Criterion) (v : Option ExtractedValue)
    (hw : 0 ≤ c.weight) (hc : ValidConfig c.config) :
    0 ≤ (evaluate c v).awarded_points ∧
      (evaluate c v).awarded_points ≤ (evaluate c v).max_points ∧
      (evaluate c v).max_points = c.weight := by
  obtain ⟨hm0, hm1⟩ := criterionMultiplier_fst_nonneg_le_one c v hc
  exact ⟨mul_nonneg hw hm0, mul_le_of_le_one_right hw hm1, rfl⟩

/-- Witness for C1: the concrete ranged criterion `expCriterion`
(weight 20, the documentation's experience buckets) evaluated at value
8 satisfies the bounds. -/
theorem criterionEvaluator_score_bounds_witness :
    0 ≤ (evaluate expCriterion (some (ExtractedValue.num 8))).awarded_points ∧
      (evaluate expCriterion (some (ExtractedValue.num 8))).awarded_points ≤
        (evaluate expCriterion (some (ExtractedValue.num 8))).max_points ∧
      (evaluate expCriterion (some (ExtractedValue.num 8))).max_points =
        expCriterion.weight :=
  criterionEvaluator_score_bounds expCriterion (some (ExtractedValue.num 8))
    (by norm_num [expCriterion])
    (by simp only [expCriterion, ValidConfig]; intro b hb; fin_cases hb <;> norm_num)

/-! Reduction lemmas for the dispatcher on a known config. -/

theorem criterionMultiplier_ranged_num (c : Criterion) (bs : List Bucket) (x : ℚ)
    (h : c.config = CriterionConfig.ranged bs) :
    criterionMultiplier c (some (ExtractedValue.num x)) = rangeMultiplier bs x := by
  obtain ⟨i, n, w, cat, cfg⟩ := c
  simp only at h
  subst h
  rfl

theorem criterionMultiplier_textMatch_str (c : Criterion) (kws : List String)
    (mt : MatchType) (t : String) (h : c.config = CriterionConfig.textMatch kws mt)
    (ht : t ≠ "") :
    criterionMultiplier c (some (ExtractedValue.str t)) = keywordMultiplier kws mt t := by
  obtain ⟨i, n, w, cat, cfg⟩ := c
  simp only at h
  subst h
  simp [criterionMultiplier, ht]

/-- C2: for every numeric value `v` with `0 ≤ v <` the lowest bucket's
`bmin` (buckets listed lowest-first, per the spec's ascending order),
the RangeScorer awards the linear ramp
`weight × lowest.multiplier × (v / lowest.bmin)`. -/
theorem rangeScorer_linear_ramp (b0 : Bucket) (rest : List Bucket) (v : ℚ)
    (hv0 : 0 ≤ v) (hv : v < b0.bmin)
    (hsorted : ∀ b ∈ b0 :: rest, b0.bmin ≤ b.bmin) :
    (rangeMultiplier (b0 :: rest) v).1 = b0.multiplier * (v / b0.bmin) ∧
      ∀ c : Criterion, c.config = CriterionConfig.ranged (b0 :: rest) →
        (evaluate c (some (ExtractedValue.num v))).awarded_points =
          c.weight * (b0.multiplier * (v / b0.bmin)) := by
  have hmax : max v 0 = v := max_eq_left hv0
  have hfind : (b0 :: rest).find?
      (fun b => decide (b.bmin ≤ max v 0 ∧ max v 0 ≤ b.bmax)) = none := by
    rw [List.find?_eq_none]
    intro b hb
    simp only [hmax, decide_eq_true_eq, not_and]
    intro hle
    exact absurd (lt_of_lt_of_le hv (hsorted b hb)) (not_lt.mpr hle)
  have h1 : (rangeMultiplier (b0 :: rest) v).1 = b0.multiplier * (v / b0.bmin) := by
    rw [hmax] at hfind
    simp only [rangeMultiplier, hmax, hfind, rampOrCap, if_pos hv]
  refine ⟨h1, ?_⟩
  intro c hcfg
  show c.weight * (criterionMultiplier c (some (ExtractedValue.num v))).1 = _
  rw [criterionMultiplier_ranged_num c (b0 :: rest) v hcfg, h1]

/-- Witness for C2: the documentation's lowest bucket
`{min 2, max 4, multiplier 0.6}` at value 1 and weight 20 awards
`20 × 0.6 × (1/2) = 6`. -/
theorem rangeScorer_linear_ramp_witness :
    (evaluate expCriterion (some (ExtractedValue.num 1))).awarded_points = 6 := by
  have h := rangeScorer_linear_ramp ⟨2, 4, 0.6, "Qualified"⟩
    [⟨5, 9, 0.85, "Senior"⟩, ⟨10, 999, 1, "Expert"⟩] 1
    (by norm_num) (by norm_num)
    (by intro b hb; fin_cases hb <;> norm_num)
  rw [h.2 expCriterion rfl]
  norm_num [expCriterion]

/-- C3: the QualificationDecision is `Qualified` exactly when the
percentage reaches the threshold, the comparison being inclusive: equal
percentage and threshold give `Qualified`; a percentage strictly below
the threshold gives `Rejected`. -/
theorem qualificationDecision_threshold_inclusive (pct threshold : ℚ) :
    (qualificationDecision pct threshold = Status.qualified ↔ threshold ≤ pct) ∧
      (pct = threshold → qualificationDecision pct threshold = Status.qualified) ∧
      (pct < threshold → qualificationDecision pct threshold = Status.rejected) := by
  refine ⟨⟨?_, ?_⟩, ?_, ?_⟩
  · intro h
    by_contra hc
    simp [qualificationDecision, hc] at h
  · intro h
    simp [qualificationDecision, h]
  · intro h
    simp [qualificationDecision, h.ge]
  · intro h
    simp [qualificationDecision, not_le.mpr h]

/-- Witness for C3: a percentage exactly at a threshold of 75 is
`Qualified`. -/
theorem qualificationDecision_threshold_inclusive_witness :
    qualificationDecision 75 75 = Status.qualified :=
  (qualificationDecision_threshold_inclusive 75 75).2.1 rfl

/-- Helper: the aggregated maximum possible score over evaluated
criteria is the sum of the criterion weights, for every value
assignment. -/
theorem maxPossibleScore_map_evaluate (criteria : List Criterion)
    (values : Nat → Option ExtractedValue) :
    maxPossibleScore (criteria.map (fun c => evaluate c (values c.cid))) =
      (criteria.map (fun c => c.weight)).sum := by
  unfold maxPossibleScore
  rw [List.map_map]
  rfl

/-- C4: for every list of ScoreResults produced from a position's
criteria — whatever the extracted values, so zero-scored and failed
criteria of every error kind included — the Aggregator's
`max_possible_score` equals the sum of all criterion weights. -/
theorem aggregator_max_possible_eq_weight_sum (criteria : List Criterion)
    (values : Nat → Option ExtractedValue) :
    maxPossibleScore (criteria.map (fun c => evaluate c (values c.cid))) =
      (criteria.map (fun c => c.weight)).sum :=
  maxPossibleScore_map_evaluate criteria values

/-- C5: a position with zero criteria or zero total weight never
divides by zero: the engine returns `percentage = 0` and status
`Rejected`. -/
theorem zero_weight_guard (criteria : List Criterion)
    (values : Nat → Option ExtractedValue) (threshold : ℚ)
    (h : (criteria.map (fun c => c.weight)).sum = 0) :
    (scoreResume criteria values threshold).pct = 0 ∧
      (scoreResume criteria values threshold).status = Status.rejected := by
  have hm : maxPossibleScore (criteria.map (fun c => evaluate c (values c.cid))) = 0 := by
    rw [maxPossibleScore_map_evaluate]
    exact h
  simp [scoreResume, hm]

/-- Witness for C5: the empty criteria list, with no values, at
threshold 75. -/
theorem zero_weight_guard_witness :
    (scoreResume [] (fun _ => none) 75).pct = 0 ∧
      (scoreResume [] (fun _ => none) 75).status = Status.rejected :=
  zero_weight_guard [] (fun _ => none) 75 (by simp)

/-- C6: in the end-to-end strong-candidate scenario (8 criteria,
weights summing to 98, awarded points 17, 13.5, 10, 12, 15, 10, 8, 4),
the total is 89.5, the percentage is exactly `89.5/98 × 100` (which
displays as 91.3% at one decimal), and the threshold-75 decision is
`Qualified`. -/
theorem strong_candidate_scenario :
    totalScore strongCandidateResults = 89.5 ∧
      maxPossibleScore strongCandidateResults = 98 ∧
      percentage strongCandidateResults = 89.5 / 98 * 100 ∧
      round (percentage strongCandidateResults * 10) = (913 : ℤ) ∧
      qualificationDecision (percentage strongCandidateResults) 75 = Status.qualified := by
  refine ⟨by norm_num [strongCandidateResults, totalScore],
    by norm_num [strongCandidateResults, maxPossibleScore], ?_, ?_, ?_⟩
  · norm_num [percentage, strongCandidateResults, totalScore, maxPossibleScore]
  · norm_num [percentage, strongCandidateResults, totalScore, maxPossibleScore, round_eq]
  · norm_num [percentage, strongCandidateResults, totalScore, maxPossibleScore,
      qualificationDecision]

/-- C7: for every KeywordMatchScorer criterion with `proportional`
match type, a non-empty required-keyword set and non-empty text, the
awarded points are `weight × (matched_count / total_required)`. -/
theorem keywordScorer_proportional (c : Criterion) (kws : List String) (t : String)
    (hcfg : c.config = CriterionConfig.textMatch kws MatchType.proportional)
    (hk : kws ≠ []) (ht : t ≠ "") :
    (evaluate c (some (ExtractedValue.str t))).awarded_points =
      c.weight *
        (((kws.filter (fun k => keywordMatches k t)).length : ℚ) / (kws.length : ℚ)) := by
  show c.weight * (criterionMultiplier c (some (ExtractedValue.str t))).1 = _
  rw [criterionMultiplier_textMatch_str c kws MatchType.proportional t hcfg ht]
  cases kws with
  | nil => exact absurd rfl hk
  | cons k ks => simp [keywordMultiplier]

/-- Witness for C7: three required keywords of which the text matches
two (case-insensitively) award `9 × 2/3 = 6` points. -/
theorem keywordScorer_proportional_witness :
    (evaluate
        ⟨2, "Skills", 9, "core",
          CriterionConfig.textMatch ["python", "sql", "excel"] MatchType.proportional⟩
        (some (ExtractedValue.str "Python and SQL developer"))).awarded_points = 6 := by
  rw [keywordScorer_proportional
    ⟨2, "Skills", 9, "core",
      CriterionConfig.textMatch ["python", "sql", "excel"] MatchType.proportional⟩
    ["python", "sql", "excel"] "Python and SQL developer" rfl (by simp) (by simp)]
  have hcount :
      (List.filter (fun k => keywordMatches k "Python and SQL developer")
        ["python", "sql", "excel"]).length = 2 := by decide
  rw [hcount]
  norm_num

/-! Sums over a list with one entry replaced. -/

theorem sum_map_set_le (f : ScoreResult → ℚ) (l : List ScoreResult) (i : ℕ)
    (r' : ScoreResult) (hi : i < l.length) (h : f (l.get ⟨i, hi⟩) ≤ f r') :
    (l.map f).sum ≤ ((l.set i r').map f).sum := by
  induction l generalizing i with
  | nil => simp at hi
  | cons a l ih =>
    cases i with
    | zero =>
      simp only [List.set, List.map, List.sum_cons]
      exact add_le_add_right (by simpa using h) (l.map f).sum
    | succ i =>
      simp only [List.set, List.map, List.sum_cons]
      exact add_le_add_left (ih i (by simpa using hi) (by simpa using h)) (f a)

theorem sum_map_set_eq (f : ScoreResult → ℚ) (l : List ScoreResult) (i : ℕ)
    (r' : ScoreResult) (hi : i < l.length) (h : f r' = f (l.get ⟨i, hi⟩)) :
    ((l.set i r').map f).sum = (l.map f).sum := by
  induction l generalizing i with
  | nil => simp at hi
  | cons a l ih =>
    cases i with
    | zero => simp only [List.set, List.map, List.sum_cons]; simp [h]
    | succ i =>
      simp only [List.set, List.map, List.sum_cons]
      rw [ih i (by simpa using hi) (by simpa using h)]

/-- C8: the aggregate percentage is monotone in each criterion's
awarded points: replacing one `ScoreResult` by one with the same
`max_points` and awarded points at least as large (all `max_points`
being non-negative, as the ScoreResult invariant guarantees) never
decreases the percentage. -/
theorem percentage_monotone (l : List ScoreResult) (i : ℕ) (hi : i < l.length)
    (r' : ScoreResult) (hnn : ∀ r ∈ l, 0 ≤ r.max_points)
    (hmax : r'.max_points = (l.get ⟨i, hi⟩).max_points)
    (haw : (l.get ⟨i, hi⟩).awarded_points ≤ r'.awarded_points) :
    percentage l ≤ percentage (l.set i r') := by
  have hM : maxPossibleScore (l.set i r') = maxPossibleScore l :=
    sum_map_set_eq _ l i r' hi hmax
  have hT : totalScore l ≤ totalScore (l.set i r') :=
    sum_map_set_le _ l i r' hi haw
  unfold percentage
  rw [hM]
  by_cases h0 : maxPossibleScore l = 0
  · simp [h0]
  · have hnonneg : 0 ≤ maxPossibleScore l := by
      unfold maxPossibleScore
      apply List.sum_nonneg
      intro x hx
      obtain ⟨r, hr, rfl⟩ := List.mem_map.mp hx
      exact hnn r hr
    have hpos : 0 < maxPossibleScore l := lt_of_le_of_ne hnonneg (Ne.symm h0)
    simp only [if_neg h0]
    have hdiv : totalScore l / maxPossibleScore l ≤
        totalScore (l.set i r') / maxPossibleScore l := by gcongr
    exact mul_le_mul_of_nonneg_right hdiv (by norm_num)

/-- Witness for C8: raising the first entry's awarded points from 5 to
7 (out of 10, with a second untouched entry) does not decrease the
percentage. -/
theorem percentage_monotone_witness :
    percentage
        [⟨1, "A", 5, 10, Reasoning.ok "x", "core"⟩,
         ⟨2, "B", 3, 10, Reasoning.ok "y", "core"⟩] ≤
      percentage
        ([⟨1, "A", 5, 10, Reasoning.ok "x", "core"⟩,
          ⟨2, "B", 3, 10, Reasoning.ok "y", "core"⟩].set 0
          ⟨1, "A", 7, 10, Reasoning.ok "x", "core"⟩) :=
  percentage_monotone
    [⟨1, "A", 5, 10, Reasoning.ok "x", "core"⟩,
     ⟨2, "B", 3, 10, Reasoning.ok "y", "core"⟩]
    0 (by norm_num) ⟨1, "A", 7, 10, Reasoning.ok "x", "core"⟩
    (by intro r hr; fin_cases hr <;> norm_num)
    (by norm_num)
    (by norm_num)

/-- C9: the frontend score-range filter keeps every resume whose score
is absent, for every choice of bounds; a resume is kept exactly when it
is in the input list and any score it does have lies within the
bounds. -/
theorem scoreRangeFilter_keeps_unscored (resumes : List Resume)
    (score_min score_max : ℚ) (r : Resume) :
    r ∈ filterByScoreRange resumes score_min score_max ↔
      r ∈ resumes ∧
        ∀ s, r.score = some s → score_min ≤ s.percentage ∧ s.percentage ≤ score_max := by
  unfold filterByScoreRange
  rw [List.mem_filter]
  constructor
  · rintro ⟨hm, hf⟩
    refine ⟨hm, ?_⟩
    intro s hs
    rw [hs] at hf
    simpa using hf
  · rintro ⟨hm, hf⟩
    refine ⟨hm, ?_⟩
    cases hsc : r.score with
    | none => simp
    | some s => simpa using hf s hsc

/-- Witness for C9: a score-less (still processing) resume passes the
50–60 filter. -/
theorem scoreRangeFilter_keeps_unscored_witness :
    (⟨none, "processing"⟩ : Resume) ∈
      filterByScoreRange [⟨none, "processing"⟩] 50 60 :=
  (scoreRangeFilter_keeps_unscored [⟨none, "processing"⟩] 50 60
      ⟨none, "processing"⟩).mpr
    ⟨by simp, by intro s hs; simp at hs⟩

/-- C10: the dashboard average is computed over scored resumes only,
with the divisor guarded by `max(count, 1)`: the divisor is always
positive, the empty list displays 0, and a non-empty list with no
scored resume displays 0. -/
theorem avgScore_guarded (resumes : List Resume) :
    0 < max (scoredResumes resumes).length 1 ∧
      avgScore ([] : List Resume) = 0 ∧
      ((∀ r ∈ resumes, r.score = none) → avgScore resumes = 0) := by
  refine ⟨lt_of_lt_of_le one_pos (le_max_right _ 1), by simp [avgScore], ?_⟩
  intro h
  cases resumes with
  | nil => simp [avgScore]
  | cons a l =>
    have hsc : scoredResumes (a :: l) = [] := by
      unfold scoredResumes
      rw [List.filterMap_eq_nil_iff]
      exact h
    simp [avgScore, hsc]

/-- Witness for C10: a one-element list whose resume has no score
displays average 0. -/
theorem avgScore_guarded_witness :
    avgScore [(⟨none, "processing"⟩ : Resume)] = 0 :=
  (avgScore_guarded [⟨none, "processing"⟩]).2.2
    (by intro r hr; simp at hr; rw [hr])

end TalentRadar
